import Mathlib

/-!
Shallow embedding of the MindWall analysis engine and IMAP proxy
(Python sources under src/) together with proofs checking the
natural-language specification against the code.

Real numbers of the Python source are modelled as rationals.  Python
round(x, n) rounds to n decimal places; we model it as rounding 10^n * x
to the nearest integer (Mathlib round, ties upward; Python uses the IEEE
double nearest/even rule, but no statement below depends on a tie).
-/

namespace MindWall

/-- Embedding of Python max(0.0, min(100.0, x)). -/
def clamp100 (x : ℚ) : ℚ := max 0 (min 100 x)

/-- Embedding of Python round(x, 2). -/
def round2 (x : ℚ) : ℚ := (round (x * 100) : ℚ) / 100

/-- Embedding of Python round(x, 4). -/
def round4 (x : ℚ) : ℚ := (round (x * 10000) : ℚ) / 10000

lemma round_mono_of_le {a b : ℚ} (h : a ≤ b) : round a ≤ round b := by
  rw [round_eq, round_eq]
  exact Int.floor_le_floor (by linarith)

/-- Evaluation rule for round at a concrete rational. -/
lemma round_eval {x : ℚ} {n : ℤ} (h1 : (n : ℚ) ≤ x + 1/2) (h2 : x + 1/2 < (n : ℚ) + 1) :
    round x = n := by
  rw [round_eq]
  exact Int.floor_eq_iff.mpr ⟨h1, h2⟩

/-- Evaluation rule for round2 at a concrete rational. -/
lemma round2_eval {x : ℚ} {n : ℤ} (h1 : (n : ℚ) ≤ x * 100 + 1/2)
    (h2 : x * 100 + 1/2 < (n : ℚ) + 1) : round2 x = (n : ℚ) / 100 := by
  unfold round2
  rw [round_eval h1 h2]

/-- Evaluation rule for round4 at a concrete rational. -/
lemma round4_eval {x : ℚ} {n : ℤ} (h1 : (n : ℚ) ≤ x * 10000 + 1/2)
    (h2 : x * 10000 + 1/2 < (n : ℚ) + 1) : round4 x = (n : ℚ) / 10000 := by
  unfold round4
  rw [round_eval h1 h2]

lemma round2_nonneg {x : ℚ} (h : 0 ≤ x) : 0 ≤ round2 x := by
  have h1 : round (0 : ℚ) ≤ round (x * 100) := round_mono_of_le (by nlinarith)
  simp only [round_zero] at h1
  have h2 : (0 : ℚ) ≤ (round (x * 100) : ℚ) := by exact_mod_cast h1
  unfold round2
  positivity

lemma round2_le_hundred {x : ℚ} (h : x ≤ 100) : round2 x ≤ 100 := by
  have h1 : round (x * 100) ≤ round ((10000 : ℚ)) := round_mono_of_le (by nlinarith)
  rw [show ((10000 : ℚ)) = ((10000 : ℤ) : ℚ) by norm_num, round_intCast] at h1
  have h2 : (round (x * 100) : ℚ) ≤ 10000 := by exact_mod_cast h1
  unfold round2
  linarith

/-- The round2 function is the identity on its own image (integer
hundredths). -/
lemma round2_round2 (x : ℚ) : round2 (round2 x) = round2 x := by
  unfold round2
  rw [div_mul_cancel₀ _ (by norm_num : (100 : ℚ) ≠ 0), round_intCast]

lemma clamp100_nonneg (x : ℚ) : 0 ≤ clamp100 x := le_max_left 0 _

lemma clamp100_le_hundred (x : ℚ) : clamp100 x ≤ 100 := by
  unfold clamp100
  rw [max_le_iff]
  exact ⟨by norm_num, min_le_left _ _⟩

/-! ### The twelve manipulation dimensions (src/api/analysis/dimensions.py) -/

/-- The closed set of 12 manipulation dimensions, in declaration order of
the Python Dimension enum. -/
inductive Dimension where
  | artificial_urgency
  | authority_impersonation
  | fear_threat_induction
  | reciprocity_exploitation
  | scarcity_tactics
  | social_proof_manipulation
  | sender_behavioral_deviation
  | cross_channel_coordination
  | emotional_escalation
  | request_context_mismatch
  | unusual_action_requested
  | timing_anomaly
deriving DecidableEq

/-- DIMENSION_WEIGHTS from dimensions.py. -/
def weight : Dimension → ℚ
  | .artificial_urgency => 12/100
  | .authority_impersonation => 15/100
  | .fear_threat_induction => 12/100
  | .reciprocity_exploitation => 7/100
  | .scarcity_tactics => 7/100
  | .social_proof_manipulation => 6/100
  | .sender_behavioral_deviation => 12/100
  | .cross_channel_coordination => 8/100
  | .emotional_escalation => 7/100
  | .request_context_mismatch => 6/100
  | .unusual_action_requested => 5/100
  | .timing_anomaly => 3/100

/-- Iteration order of `for dimension in Dimension` in scorer.py. -/
def allDimensions : List Dimension :=
  [.artificial_urgency, .authority_impersonation, .fear_threat_induction,
   .reciprocity_exploitation, .scarcity_tactics, .social_proof_manipulation,
   .sender_behavioral_deviation, .cross_channel_coordination,
   .emotional_escalation, .request_context_mismatch,
   .unusual_action_requested, .timing_anomaly]

/-- The accumulation loop of ScoreAggregator.compute_aggregate: a merged
score map carries all twelve keys, so the dict .get default never fires
and the map is modelled as a total function. -/
def weightedSum (scores : Dimension → ℚ) : ℚ :=
  allDimensions.foldl (fun acc d => acc + scores d * weight d) 0

/-- ScoreAggregator.compute_aggregate (scorer.py): weighted sum, clamped
to [0,100], rounded to two decimals. -/
def computeAggregate (scores : Dimension → ℚ) : ℚ :=
  round2 (clamp100 (weightedSum scores))

/-- The pre-filter boost step of AnalysisPipeline.run (pipeline.py):
applied only when the boost is strictly positive, then min-ed with 100
and rounded to two decimals. -/
def applyBoost (aggregate boost : ℚ) : ℚ :=
  if boost > 0 then round2 (min 100 (aggregate + boost)) else aggregate

/-- The final aggregate manipulation score produced by the pipeline from
a merged dimension-score map and the pre-filter boost. -/
def pipelineAggregate (scores : Dimension → ℚ) (boost : ℚ) : ℚ :=
  applyBoost (computeAggregate scores) boost

/-- The aggregate formula in the words of the specification (section 3
invariants): weighted sum clamped to [0,100], plus the pre-filter boost,
re-clamped.  Used to compare the spec against the code. -/
def specAggregate (scores : Dimension → ℚ) (boost : ℚ) : ℚ :=
  clamp100 (clamp100 (weightedSum scores) + boost)

/-- The weighted sum written out dimension by dimension, as in the
dimension table of the specification. -/
def specWeightedSum (s : Dimension → ℚ) : ℚ :=
  12/100 * s .artificial_urgency + 15/100 * s .authority_impersonation +
  12/100 * s .fear_threat_induction + 7/100 * s .reciprocity_exploitation +
  7/100 * s .scarcity_tactics + 6/100 * s .social_proof_manipulation +
  12/100 * s .sender_behavioral_deviation + 8/100 * s .cross_channel_coordination +
  7/100 * s .emotional_escalation + 6/100 * s .request_context_mismatch +
  5/100 * s .unusual_action_requested + 3/100 * s .timing_anomaly

lemma weightedSum_eq_spec (s : Dimension → ℚ) : weightedSum s = specWeightedSum s := by
  simp only [weightedSum, allDimensions, List.foldl, specWeightedSum, weight]
  ring

/-! ### Severity (AnalysisPipeline._severity, pipeline.py) -/

/-- AnalysisPipeline._severity: severity string from the aggregate score. -/
def severity (score : ℚ) : String :=
  if score ≥ 80 then "critical"
  else if score ≥ 60 then "high"
  else if score ≥ 35 then "medium"
  else "low"

/-- Rank of a severity string in the order low < medium < high < critical. -/
def sevRank : String → ℕ
  | "critical" => 3
  | "high" => 2
  | "medium" => 1
  | _ => 0

/-! ### Alert creation and broadcast (stages 8-9 of AnalysisPipeline.run) -/

/-- The new_alert event broadcast over the websocket manager (the fields
of the payload dict that stages 8-9 fill in; textual fields omitted). -/
structure NewAlertEvent where
  event : String
  alertId : ℕ
  analysisId : ℕ
  manipulationScore : ℚ
  severityLevel : String
deriving DecidableEq

/-- Alert records and broadcast events accumulated by the pipeline. -/
structure PipelineStore where
  alerts : List (ℕ × String)
  events : List NewAlertEvent
deriving DecidableEq

/-- Stages 8-9 of AnalysisPipeline.run: if the aggregate score is >= 35,
insert an alert record carrying the computed severity and broadcast one
new_alert event; otherwise do neither. -/
def alertStage (store : PipelineStore) (analysisId : ℕ) (aggregate : ℚ) (sev : String) :
    PipelineStore :=
  if aggregate ≥ 35 then
    { alerts := store.alerts ++ [(analysisId, sev)],
      events := store.events ++
        [{ event := "new_alert", alertId := store.alerts.length,
           analysisId := analysisId, manipulationScore := aggregate,
           severityLevel := sev }] }
  else store

/-! ### Risk-score injector (src/proxy/imap/injector.py)

The IMAP response text is modelled as a list of lines (lists of
characters); the regex (Subject:[\ t]*)(rest) with MULTILINE and count=1
rewrites the first line beginning case-insensitively with Subject:. -/

/-- SEVERITY_BADGES dict lookup with default "" (dict .get). -/
def severityBadge : String → String
  | "low" => ""
  | "medium" => "[⚠ MW:MEDIUM]"
  | "high" => "[🔴 MW:HIGH]"
  | "critical" => "[🚨 MW:CRITICAL]"
  | _ => ""

/-- Python regex \s character class (inside one line). -/
def pyIsSpace (c : Char) : Bool :=
  c = ' ' || c = '\t' || c = '\n' || c = '\r' || c = '\x0b' || c = '\x0c'

/-- ASCII lowering, the effect of Python str.lower / re.IGNORECASE on
the ASCII texts involved. -/
def asciiLower (c : Char) : Char := c.toLower

/-- Match of the pattern (Subject:[\s]*)(.*) against one line: returns
the group-1 prefix (header name plus following whitespace run) and the
group-2 remainder when the line starts case-insensitively with the
Subject: header name. -/
def splitSubject (line : List Char) : Option (List Char × List Char) :=
  if (line.take 8).map asciiLower = "subject:".data then
    let tl := line.drop 8
    some (line.take 8 ++ tl.takeWhile pyIsSpace, tl.dropWhile pyIsSpace)
  else none

/-- SUBJECT_PATTERN.sub(replace_subject, raw, count=1): rewrite the first
matching line, prepending the badge and one space to the subject text. -/
def injectFirst (badge : List Char) : List (List Char) → List (List Char)
  | [] => []
  | l :: rest =>
    match splitSubject l with
    | some (pre, subj) => (pre ++ badge ++ ' ' :: subj) :: rest
    | none => l :: injectFirst badge rest

/-- RiskScoreInjector.inject_score: no-op when the severity maps to an
empty badge, otherwise a single subject rewrite.  The score argument is
carried but (as in the source) never consulted. -/
def inject_score (lines : List (List Char)) (_score : ℚ) (sev : String) :
    List (List Char) :=
  let badge := severityBadge sev
  if badge = "" then lines else injectFirst badge.data lines

/-! ### LLM response validation and fallback (pipeline.py) -/

/-- The .value string of each Dimension enum member. -/
def dimName : Dimension → String
  | .artificial_urgency => "artificial_urgency"
  | .authority_impersonation => "authority_impersonation"
  | .fear_threat_induction => "fear_threat_induction"
  | .reciprocity_exploitation => "reciprocity_exploitation"
  | .scarcity_tactics => "scarcity_tactics"
  | .social_proof_manipulation => "social_proof_manipulation"
  | .sender_behavioral_deviation => "sender_behavioral_deviation"
  | .cross_channel_coordination => "cross_channel_coordination"
  | .emotional_escalation => "emotional_escalation"
  | .request_context_mismatch => "request_context_mismatch"
  | .unusual_action_requested => "unusual_action_requested"
  | .timing_anomaly => "timing_anomaly"

/-- A parsed (JSON-decoded) LLM response object.  A missing key is none;
a dimension-score entry whose value is not numeric (float() raises) is
an inner none. -/
structure LLMFields where
  dimensionScores : Option (List (String × Option ℚ))
  explanation : Option String
  recommendedAction : Option String

/-- The dimension map produced by AnalysisPipeline._validate_llm_response:
a missing dimension_scores key becomes an empty dict, every missing or
non-numeric entry becomes 0.0, numeric entries are kept. -/
def validatedScore (resp : LLMFields) (d : Dimension) : ℚ :=
  match resp.dimensionScores with
  | none => 0
  | some l =>
    match l.lookup (dimName d) with
    | none => 0
    | some none => 0
    | some (some q) => q

/-- The recommended_action field after _validate_llm_response. -/
def validatedAction (resp : LLMFields) : String :=
  match resp.recommendedAction with
  | none => "proceed"
  | some a => if a = "proceed" ∨ a = "verify" ∨ a = "block" then a else "verify"

/-- Result of PreFilter.evaluate (prefilter.py). -/
structure PreFilterResult where
  triggered : Bool
  signals : List String
  score_boost : ℚ

/-- Embedding of signal.split("(")[0] in _fallback_scores: the part of
the signal token before the first opening parenthesis. -/
def baseSignal (s : String) : String := ⟨s.data.takeWhile (fun c => c ≠ '(')⟩

/-- One iteration of the signal-mapping loop of
AnalysisPipeline._fallback_scores. -/
def fallbackUpdate (scores : Dimension → ℚ) (sig : String) : Dimension → ℚ :=
  let b := baseSignal sig
  if b = "urgency_language_detected" then
    fun d => if d = .artificial_urgency then max (scores .artificial_urgency) 40 else scores d
  else if b = "authority_reference_detected" then
    fun d => if d = .authority_impersonation then max (scores .authority_impersonation) 45 else scores d
  else if b = "fear_threat_language_detected" then
    fun d => if d = .fear_threat_induction then max (scores .fear_threat_induction) 40 else scores d
  else if b = "emotional_manipulation_detected" then
    fun d => if d = .emotional_escalation then max (scores .emotional_escalation) 35 else scores d
  else if b = "spoofed_sender_pattern" then
    fun d => if d = .authority_impersonation then max (scores .authority_impersonation) 60 else scores d
  else if b = "all_caps_subject" then
    fun d => if d = .emotional_escalation then max (scores .emotional_escalation) 20 else scores d
  else if b = "suspicious_request_detected" then
    fun d => if d = .unusual_action_requested then 50 else scores d
  else scores

/-- The synthetic dimension map of AnalysisPipeline._fallback_scores. -/
def fallbackScores (signals : List String) : Dimension → ℚ :=
  signals.foldl fallbackUpdate (fun _ => 0)

/-- AnalysisPipeline._fallback_scores as a whole response object. -/
def fallbackResponse (pf : PreFilterResult) : LLMFields :=
  { dimensionScores :=
      some (allDimensions.map fun d => (dimName d, some (fallbackScores pf.signals d))),
    explanation := some "Analysis based on rule-based pre-filter (LLM unavailable).",
    recommendedAction := some (if pf.triggered then "verify" else "proceed") }

/-- The try/except of stage 4 in AnalysisPipeline.run: a transport error
or a JSON decode error (parsed = none) selects the fallback response;
any successfully parsed object is used as is (then validated). -/
def llmDataOf (parsed : Option LLMFields) (pf : PreFilterResult) : LLMFields :=
  match parsed with
  | none => fallbackResponse pf
  | some d => d

/-! ### Rule-based pre-filter (src/api/analysis/prefilter.py)

The per-family regex searches over subject-space-body and over the
sender address are the only part not embedded character by character:
each family carries the list of per-pattern search outcomes (one Bool
per compiled pattern of the family, catalog sizes as in the source).
The all-caps check, the exclamation count and the send-hour check are
embedded directly. -/

/-- Inputs of PreFilter.evaluate. -/
structure PreFilterInput where
  subject : List Char
  body : List Char
  urgencyHits : List Bool
  authorityHits : List Bool
  fearHits : List Bool
  suspiciousHits : List Bool
  emotionalHits : List Bool
  spoofedHits : List Bool
  receivedHour : Option ℤ

/-- Python str.upper on the ASCII subjects involved. -/
def asciiUpper (c : Char) : Char := c.toUpper

/-- PreFilter.evaluate, in source order of the nine signal families. -/
def evaluate (inp : PreFilterInput) : PreFilterResult :=
  let combined := inp.subject ++ ' ' :: inp.body
  let urg := inp.urgencyHits.any id
  let auth := inp.authorityHits.any id
  let fear := inp.fearHits.any id
  let suspCount := inp.suspiciousHits.count true
  let emo := inp.emotionalHits.any id
  let spoof := inp.spoofedHits.any id
  let hourSig :=
    match inp.receivedHour with
    | some h => decide (h < 5 ∨ h > 23)
    | none => false
  let caps :=
    inp.subject ≠ [] ∧ inp.subject.length > 5 ∧ inp.subject = inp.subject.map asciiUpper
  let exclCount := combined.count '!'
  let signals :=
    (if urg then ["urgency_language_detected"] else []) ++
    (if auth then ["authority_reference_detected"] else []) ++
    (if fear then ["fear_threat_language_detected"] else []) ++
    (if suspCount > 0 then
      ["suspicious_request_detected(count=" ++ toString suspCount ++ ")"] else []) ++
    (if emo then ["emotional_manipulation_detected"] else []) ++
    (if spoof then ["spoofed_sender_pattern"] else []) ++
    (if hourSig then
      ["unusual_send_hour(" ++ toString inp.receivedHour.iget ++ ")"] else []) ++
    (if caps then ["all_caps_subject"] else []) ++
    (if exclCount > 3 then
      ["excessive_exclamation_marks(" ++ toString exclCount ++ ")"] else [])
  let boost : ℚ :=
    (if urg then 5 else 0) + (if auth then 8 else 0) + (if fear then 7 else 0) +
    (if suspCount > 0 then min (suspCount * 5 : ℚ) 20 else 0) +
    (if emo then 4 else 0) + (if spoof then 10 else 0) +
    (if hourSig then 3 else 0) + (if caps then 3 else 0) +
    (if exclCount > 3 then 2 else 0)
  { triggered := signals.length > 0, signals := signals, score_boost := boost }

/-! ### Text metrics shared by baseline.py and deviation.py

Python body processing embedded over lists of characters:
str.split() and re.split on the sentence-delimiter class. -/

/-- Split a character list at every delimiter character, keeping empty
pieces (as re.split with a single-character separator does). -/
def pySplitP (p : Char → Bool) : List Char → List (List Char)
  | [] => [[]]
  | c :: rest =>
    match pySplitP p rest with
    | [] => [[]]
    | piece :: more => if p c then [] :: piece :: more else (c :: piece) :: more

/-- len(body.split()): str.split() with no argument splits on whitespace
runs and discards empty pieces. -/
def wordCount (s : List Char) : ℕ :=
  ((pySplitP pyIsSpace s).filter (fun w => ¬ w = [])).length

/-- A piece that survives [s.strip() for s in pieces if s.strip()]:
it contains at least one non-whitespace character. -/
def keptPiece (w : List Char) : Bool := w.any (fun c => ¬ pyIsSpace c)

/-- Number of sentences: re.split(r"[.!?]+", body) followed by the
strip-and-drop-empty comprehension.  Splitting at each single delimiter
and dropping pieces that strip to empty yields the same count as
splitting at delimiter runs. -/
def sentenceCount (s : List Char) : ℕ :=
  ((pySplitP (fun c => c = '.' || c = '!' || c = '?') s).filter keptPiece).length

/-- avg_sentence_len = word_count / max(len(sentences), 1). -/
def avgSentenceLen (s : List Char) : ℚ :=
  (wordCount s : ℚ) / (max (sentenceCount s) 1 : ℕ)

/-- Does the needle occur as a contiguous run at the head of the haystack. -/
def headMatch : List Char → List Char → Bool
  | [], _ => true
  | _ :: _, [] => false
  | a :: as, b :: bs => a = b && headMatch as bs

/-- Python substring containment (needle in haystack). -/
def containsSeq (needle : List Char) : List Char → Bool
  | [] => headMatch needle []
  | hay@(_ :: t) => headMatch needle hay || containsSeq needle t

/-- The formal markers of DeviationScorer._quick_formality. -/
def quickFormalMarkers : List String :=
  ["dear", "sincerely", "regards", "respectfully", "kindly",
   "hereby", "pursuant", "attached herewith", "please find"]

/-- The informal markers of DeviationScorer._quick_formality. -/
def quickInformalMarkers : List String :=
  ["hey", "hi", "yo", "gonna", "wanna", "gotta", "lol",
   "haha", "btw", "fyi", "thx", "awesome", "cool"]

/-- DeviationScorer._quick_formality: ratio of formal marker hits to all
marker hits over the lowercased text, 0.5 when no marker occurs,
rounded to four decimals. -/
def quickFormality (s : List Char) : ℚ :=
  let tl := s.map asciiLower
  let fc := (quickFormalMarkers.filter (fun m => containsSeq m.data tl)).length
  let ic := (quickInformalMarkers.filter (fun m => containsSeq m.data tl)).length
  if fc + ic = 0 then 1/2 else round4 ((fc : ℚ) / ((fc : ℚ) + (ic : ℚ)))

/-! ### Baseline engine update (src/api/analysis/behavioral/baseline.py) -/

/-- A persisted sender_baselines row as update_baseline reads it.  The
typical_hours JSON text is carried already parsed; none stands for a
null or malformed column (json.loads failure), which the source turns
into an empty list. -/
structure BaselineRow where
  avg_word_count : Option ℚ
  avg_sentence_length : Option ℚ
  typical_hours : Option (List ℤ)
  formality_score : Option ℚ
  sample_count : Option ℤ

/-- Python (x or d) on an optional numeric column: both a null and a
zero stored value fall back to the default. -/
def pyOr (x : Option ℚ) (d : ℚ) : ℚ :=
  match x with
  | none => d
  | some v => if v = 0 then d else v

/-- Python (x or 0) on the integer sample_count column. -/
def pyOrZ (x : Option ℤ) : ℤ :=
  match x with
  | none => 0
  | some v => if v = 0 then 0 else v

lemma pyOr_some_ne {v : ℚ} (d : ℚ) (hv : v ≠ 0) : pyOr (some v) d = v := by
  simp [pyOr, hv]

lemma pyOrZ_some_ne {v : ℤ} (hv : v ≠ 0) : pyOrZ (some v) = v := by
  simp [pyOrZ, hv]

/-- json.loads(existing.typical_hours or "[]") with the try/except. -/
def parsedHours (x : Option (List ℤ)) : List ℤ :=
  match x with
  | none => []
  | some l => l

/-- Python sorted() on the hour list. -/
def sortHours (l : List ℤ) : List ℤ := l.insertionSort (· ≤ ·)

/-- EMA_ALPHA = 0.15. -/
def emaAlpha : ℚ := 15/100

/-- BaselineEngine.update_baseline, factored at the point where the
current-message metrics (word count, average sentence length, formality,
send hour) have been computed and the existing row has been read:
the written row for both the first-observation insert and the EMA
update.  Scalar axes are stored rounded (2 decimals; formality 4), the
hour list is appended when the hour is absent, truncated to its last 8
entries, and stored sorted. -/
def update_baseline (wc : ℕ) (asl formality : ℚ) (sendHour : Option ℤ)
    (existing : Option BaselineRow) : BaselineRow :=
  match existing with
  | none =>
    { avg_word_count := some (wc : ℚ),
      avg_sentence_length := some (round2 asl),
      typical_hours := some (match sendHour with | some h => [h] | none => []),
      formality_score := some (round4 formality),
      sample_count := some 1 }
  | some ex =>
    let newWc := emaAlpha * (wc : ℚ) + (1 - emaAlpha) * pyOr ex.avg_word_count 0
    let newSl := emaAlpha * asl + (1 - emaAlpha) * pyOr ex.avg_sentence_length 0
    let newF := emaAlpha * formality + (1 - emaAlpha) * pyOr ex.formality_score (1/2)
    let hours0 := parsedHours ex.typical_hours
    let hours1 :=
      match sendHour with
      | some h =>
        if h ∈ hours0 then hours0
        else
          let l := hours0 ++ [h]
          if l.length > 8 then l.drop (l.length - 8) else l
      | none => hours0
    { avg_word_count := some (round2 newWc),
      avg_sentence_length := some (round2 newSl),
      typical_hours := some (sortHours hours1),
      formality_score := some (round4 newF),
      sample_count := some (pyOrZ ex.sample_count + 1) }

/-! ### Deviation scorer (src/api/analysis/behavioral/deviation.py) -/

/-- The baseline dict returned by BaselineEngine.get_baseline (all keys
present; the repository null-handling happened there). -/
structure BaselineDict where
  avg_word_count : ℚ
  avg_sentence_length : ℚ
  typical_hours : List ℤ
  formality_score : ℚ
  sample_count : ℤ

/-- min(abs(a - b), 24 - abs(a - b)): circular distance on the clock. -/
def circDist (a b : ℤ) : ℤ := min |a - b| (24 - |a - b|)

/-- min over the typical hours of the circular distance (only evaluated
on non-empty lists in the source). -/
def minCircDist (h : ℤ) : List ℤ → ℤ
  | [] => 0
  | [x] => circDist h x
  | x :: y :: ys => min (circDist h x) (minCircDist h (y :: ys))

/-- DeviationScorer.score: the aggregate deviation_score field. -/
def deviation_score (body : List Char) (recvHour : Option ℤ)
    (baseline : Option BaselineDict) : ℚ :=
  match baseline with
  | none => 0
  | some b =>
    if b.sample_count < 3 then 0
    else
      let wc : ℚ := (wordCount body : ℚ)
      let asl := avgSentenceLen body
      let wcScore := if b.avg_word_count > 0
        then min 100 (|wc - b.avg_word_count| / b.avg_word_count * 100) else 0
      let slScore := if b.avg_sentence_length > 0
        then min 100 (|asl - b.avg_sentence_length| / b.avg_sentence_length * 100) else 0
      let timingScore :=
        match recvHour with
        | none => 0
        | some h =>
          if b.typical_hours ≠ [] ∧ h ∉ b.typical_hours
          then min 100 ((minCircDist h b.typical_hours : ℚ) / 6 * 100)
          else 0
      let fScore := min 100 (|quickFormality body - b.formality_score| * 200)
      round2 (min 100 (max 0
        (wcScore * (30/100) + slScore * (15/100) +
         timingScore * (25/100) + fScore * (30/100))))

/-! ### Cross-channel detector (src/api/analysis/behavioral/cross_channel.py) -/

/-- The fields of a stored analysis that CrossChannelDetector.detect
reads from the window query result (rows in ascending analyzed_at
order). -/
structure RecentAnalysis where
  channel : String
  manipulation_score : Option ℚ
deriving DecidableEq

/-- Result dict of CrossChannelDetector.detect. -/
structure CCResult where
  coordination_detected : Bool
  score : ℚ
  channels_used : List String
  recent_analysis_count : ℕ
deriving DecidableEq

/-- Python sorted() on the channel set. -/
def sortStrings (l : List String) : List String := l.insertionSort (· ≤ ·)

/-- CrossChannelDetector.detect, given the current channel and the rows
the 24-hour window query returned. -/
def detect (currentChannel : String) (recent : List RecentAnalysis) : CCResult :=
  if recent = [] then
    { coordination_detected := false, score := 0,
      channels_used := [currentChannel], recent_analysis_count := 0 }
  else
    let channels :=
      (currentChannel ::
        recent.filterMap (fun a => if a.channel = "" then none else some a.channel)).dedup
    let detected := channels.length ≥ 2
    let count := recent.length
    let scores := recent.filterMap (fun a => a.manipulation_score)
    let esc := scores.length ≥ 2 ∧ scores.getLastD 0 > scores.headD 0
    let raw : ℚ :=
      if detected then
        ((channels.length - 1 : ℕ) : ℚ) * 25 + min ((count : ℚ) * 10) 30 +
          (if esc then 20 else 0)
      else 0
    { coordination_detected := detected,
      score := round2 (min 100 (max 0 raw)),
      channels_used := sortStrings channels,
      recent_analysis_count := count }

/-! ### Analysis repository insert (src/api/db/repositories/analysis_repo.py)

models.py puts UniqueConstraint("message_uid", "recipient_email") on the
analyses table; AnalysisRepository.insert adds a row and commits with no
conflict handling, so a duplicate fingerprint surfaces as a database
integrity error. -/

/-- The columns of an analyses row that the uniqueness claim needs. -/
structure AnalysisRecord where
  id : ℕ
  message_uid : String
  recipient_email : String
  manipulation_score : ℚ

/-- AnalysisRepository.insert against a table state: a commit that
violates the unique (message_uid, recipient_email) constraint raises
(Except.error, the uncaught IntegrityError) and leaves the table
unchanged; otherwise the row is appended with a fresh id, which is
returned. -/
def analysisInsert (table : List AnalysisRecord) (uid rcpt : String) (score : ℚ) :
    Except Unit (List AnalysisRecord × ℕ) :=
  if table.any (fun r => r.message_uid = uid ∧ r.recipient_email = rcpt) then
    .error ()
  else
    let newId := table.length
    .ok (table ++ [{ id := newId, message_uid := uid, recipient_email := rcpt,
                     manipulation_score := score }], newId)

/-! ## Claim C1: the final aggregate -/

/-- Score map for the C1 counterexample: artificial_urgency 0.1 (inside
[0,100]), every other dimension 0. -/
def cexScores : Dimension → ℚ := fun d => if d = .artificial_urgency then 1/10 else 0

lemma cex_weightedSum : weightedSum cexScores = 3/250 := by
  rw [weightedSum_eq_spec]
  simp [specWeightedSum, cexScores]
  norm_num

lemma clamp100_small : clamp100 (3/250) = 3/250 := by
  unfold clamp100
  rw [min_eq_right (by norm_num), max_eq_right (by norm_num)]

/-- Claim C1, counterexample: with dimension scores all in [0,100]
(artificial_urgency 0.1, the rest 0) and boost 0, the pipeline produces
round(0.012, 2) = 0.01, not the clamped weighted sum 0.012 that the
claim states: compute_aggregate rounds to two decimals. -/
theorem aggregate_formula_cex :
    pipelineAggregate cexScores 0 ≠ specAggregate cexScores 0 := by
  have hr : round2 (3/250) = 1/100 := by
    have h := round2_eval (x := 3/250) (n := 1) (by norm_num) (by norm_num)
    norm_num at h
    exact h
  unfold pipelineAggregate applyBoost computeAggregate specAggregate
  rw [cex_weightedSum, clamp100_small, hr, if_neg (by norm_num)]
  rw [add_zero, clamp100_small]
  norm_num

/-- Claim C1 (amended): for every twelve-key dimension score map (each
value in [0,100]) and every pre-filter boost >= 0, the final aggregate
equals the weighted sum clamped to [0,100] and rounded to two decimals,
to which the boost is added, the result min-capped at 100 and rounded
again; in particular the final aggregate is always in [0,100]. -/
theorem aggregate_characterization :
    ∀ (scores : Dimension → ℚ) (boost : ℚ),
      0 ≤ boost → (∀ d, 0 ≤ scores d ∧ scores d ≤ 100) →
      pipelineAggregate scores boost =
        round2 (min 100 (round2 (clamp100 (specWeightedSum scores)) + boost)) ∧
      0 ≤ pipelineAggregate scores boost ∧ pipelineAggregate scores boost ≤ 100 := by
  intro scores boost hb _hr
  have hAdef : computeAggregate scores = round2 (clamp100 (specWeightedSum scores)) := by
    rw [computeAggregate, weightedSum_eq_spec]
  have hA0 : 0 ≤ computeAggregate scores :=
    round2_nonneg (clamp100_nonneg _)
  have hA100 : computeAggregate scores ≤ 100 :=
    round2_le_hundred (clamp100_le_hundred _)
  unfold pipelineAggregate applyBoost
  rcases lt_or_eq_of_le hb with hpos | hzero
  · rw [if_pos hpos, hAdef]
    refine ⟨rfl, ?_, ?_⟩
    · exact round2_nonneg (le_min (by norm_num) (by rw [← hAdef]; linarith))
    · exact round2_le_hundred (min_le_left _ _)
  · rw [if_neg (by rw [← hzero]; exact lt_irrefl 0)]
    refine ⟨?_, hA0, hA100⟩
    rw [← hzero, add_zero, min_eq_right (by rw [← hAdef]; exact hA100), ← hAdef,
      computeAggregate, round2_round2]

/-- Witness for the amended C1 at the concrete map with every dimension
at 50 and boost 5. -/
theorem aggregate_characterization_witness :
    (0 : ℚ) ≤ 5 ∧ (∀ d : Dimension, 0 ≤ ((fun _ => (50:ℚ)) d) ∧ ((fun _ => (50:ℚ)) d) ≤ 100) ∧
    (pipelineAggregate (fun _ => 50) 5 =
        round2 (min 100 (round2 (clamp100 (specWeightedSum fun _ => 50)) + 5)) ∧
      0 ≤ pipelineAggregate (fun _ => 50) 5 ∧
      pipelineAggregate (fun _ => 50) 5 ≤ 100) :=
  ⟨by norm_num, fun _ => ⟨by norm_num, by norm_num⟩,
   aggregate_characterization (fun _ => 50) 5 (by norm_num)
     (fun _ => ⟨by norm_num, by norm_num⟩)⟩

/-! ## Claim C2: alert creation and broadcast -/

/-- Claim C2: an alert record is created and a new_alert event broadcast
exactly when the final aggregate is >= 35; below 35 the store is
untouched. -/
theorem alert_iff_threshold :
    ∀ (store : PipelineStore) (analysisId : ℕ) (agg : ℚ) (sev : String),
      (35 ≤ agg →
        (alertStage store analysisId agg sev).alerts =
          store.alerts ++ [(analysisId, sev)] ∧
        (alertStage store analysisId agg sev).events =
          store.events ++
            [{ event := "new_alert", alertId := store.alerts.length,
               analysisId := analysisId, manipulationScore := agg,
               severityLevel := sev }]) ∧
      (agg < 35 → alertStage store analysisId agg sev = store) ∧
      ((alertStage store analysisId agg sev).alerts ≠ store.alerts ↔ 35 ≤ agg) ∧
      ((alertStage store analysisId agg sev).events ≠ store.events ↔ 35 ≤ agg) := by
  intro store analysisId agg sev
  unfold alertStage
  split_ifs with h
  · refine ⟨fun _ => ⟨rfl, rfl⟩, fun hlt => absurd h (not_le.mpr hlt), ?_, ?_⟩ <;>
      simp [h]
  · push_neg at h
    refine ⟨fun hge => absurd hge (not_le.mpr h), fun _ => rfl, ?_, ?_⟩ <;>
      simp [not_le.mpr h]

/-- Witness for C2 at aggregate 50 (alert created) on an empty store. -/
theorem alert_iff_threshold_witness :
    (35 : ℚ) ≤ 50 ∧
    ((alertStage ⟨[], []⟩ 7 50 "medium").alerts = [] ++ [(7, "medium")] ∧
      (alertStage ⟨[], []⟩ 7 50 "medium").events =
        [] ++ [{ event := "new_alert", alertId := 0, analysisId := 7,
                 manipulationScore := 50, severityLevel := "medium" }]) :=
  ⟨by norm_num, (alert_iff_threshold ⟨[], []⟩ 7 50 "medium").1 (by norm_num)⟩

/-! ## Claim C3: severity thresholds and monotonicity -/

/-- Claim C3: severity is total with thresholds 80/60/35 and is monotone
in the aggregate score, in the order low < medium < high < critical. -/
theorem severity_total_and_monotone :
    (∀ s : ℚ,
      (80 ≤ s → severity s = "critical") ∧
      (60 ≤ s ∧ s < 80 → severity s = "high") ∧
      (35 ≤ s ∧ s < 60 → severity s = "medium") ∧
      (s < 35 → severity s = "low")) ∧
    (∀ s1 s2 : ℚ, s1 ≤ s2 → sevRank (severity s1) ≤ sevRank (severity s2)) := by
  constructor
  · intro s
    refine ⟨fun h => ?_, fun h => ?_, fun h => ?_, fun h => ?_⟩ <;>
      unfold severity <;>
      split_ifs <;>
      first
        | rfl
        | (exfalso; rcases h with ⟨ha, hb⟩ <;> linarith)
        | (exfalso; linarith)
  · intro s1 s2 h
    unfold severity
    split_ifs <;> first | decide | (exfalso; linarith)

/-- Witness for C3 at scores 59 and 85. -/
theorem severity_total_and_monotone_witness :
    ((80 : ℚ) ≤ 85 ∧ severity 85 = "critical") ∧
    ((59 : ℚ) ≤ 85 ∧ sevRank (severity 59) ≤ sevRank (severity 85)) :=
  ⟨⟨by norm_num, (severity_total_and_monotone.1 85).1 (by norm_num)⟩,
   ⟨by norm_num, severity_total_and_monotone.2 59 85 (by norm_num)⟩⟩

/-! ## Claim C4: injector idempotence -/

/-- A one-line FETCH response fragment carrying a Subject header. -/
def cexFetch : List (List Char) := ["Subject: Hi".data]

/-- Claim C4: inject_score has no marker-prefix detection: on a subject
already carrying its own badge it prepends a second badge, so applying
it twice differs from applying it once.  Evaluated at the concrete
response Subject: Hi with a high verdict. -/
theorem inject_score_not_idempotent :
    inject_score cexFetch 80 "high" = ["Subject: [🔴 MW:HIGH] Hi".data] ∧
    inject_score (inject_score cexFetch 80 "high") 80 "high" =
      ["Subject: [🔴 MW:HIGH] [🔴 MW:HIGH] Hi".data] ∧
    inject_score (inject_score cexFetch 80 "high") 80 "high" ≠
      inject_score cexFetch 80 "high" := by
  refine ⟨by decide, by decide, by decide⟩

/-! ## Claim C5: fallback on malformed inference responses -/

/-- Pre-filter result for the C5 inputs: one urgency signal. -/
def cexPF : PreFilterResult :=
  { triggered := true, signals := ["urgency_language_detected"], score_boost := 5 }

/-- A successfully parsed response object with no dimension_scores key. -/
def cexNoScores : LLMFields :=
  { dimensionScores := none, explanation := none, recommendedAction := none }

lemma fallbackScores_urgency :
    fallbackScores ["urgency_language_detected"] .artificial_urgency = 40 := by
  have hb : baseSignal "urgency_language_detected" = "urgency_language_detected" := by
    decide
  show fallbackUpdate (fun _ => 0) "urgency_language_detected" .artificial_urgency = 40
  unfold fallbackUpdate
  rw [hb, if_pos rfl, if_pos rfl]
  norm_num

/-- Claim C5, counterexample: a response that parses as JSON but lacks
the dimension_scores key does not take the fallback path — validation
fills the missing map with zeros (artificial_urgency 0), while the
fallback path built from the urgency pre-filter signal would carry
artificial_urgency 40. -/
theorem fallback_claim_cex :
    validatedScore (llmDataOf (some cexNoScores) cexPF) .artificial_urgency = 0 ∧
    validatedScore (fallbackResponse cexPF) .artificial_urgency = 40 ∧
    llmDataOf (some cexNoScores) cexPF ≠ fallbackResponse cexPF := by
  refine ⟨rfl, ?_, ?_⟩
  · show validatedScore (fallbackResponse cexPF) .artificial_urgency = 40
    unfold validatedScore fallbackResponse
    simp only [cexPF, allDimensions, List.map, List.lookup, dimName]
    rw [show (("artificial_urgency" == "artificial_urgency") = true) from by decide]
    simp only [cond_true]
    exact fallbackScores_urgency
  · intro h
    have : (llmDataOf (some cexNoScores) cexPF).dimensionScores =
        (fallbackResponse cexPF).dimensionScores := by rw [h]
    simp [llmDataOf, cexNoScores, fallbackResponse] at this

/-- Claim C5 (amended): only a parse or transport failure selects the
synthetic fallback map; a parsed response is used as is, with validation
coercing a missing dimension_scores key, a missing dimension entry, or a
non-numeric entry to 0 and keeping numeric entries. -/
theorem llm_validation_characterization :
    (∀ pf, llmDataOf none pf = fallbackResponse pf) ∧
    (∀ pf resp, llmDataOf (some resp) pf = resp) ∧
    (∀ resp d, resp.dimensionScores = none → validatedScore resp d = 0) ∧
    (∀ resp l d, resp.dimensionScores = some l →
      l.lookup (dimName d) = some none → validatedScore resp d = 0) ∧
    (∀ resp l d, resp.dimensionScores = some l →
      l.lookup (dimName d) = none → validatedScore resp d = 0) ∧
    (∀ resp l d q, resp.dimensionScores = some l →
      l.lookup (dimName d) = some (some q) → validatedScore resp d = q) := by
  refine ⟨fun _ => rfl, fun _ _ => rfl, ?_, ?_, ?_, ?_⟩
  · intro resp d h
    unfold validatedScore
    rw [h]
  · intro resp l d h1 h2
    unfold validatedScore
    rw [h1]
    dsimp only
    rw [h2]
  · intro resp l d h1 h2
    unfold validatedScore
    rw [h1]
    dsimp only
    rw [h2]
  · intro resp l d q h1 h2
    unfold validatedScore
    rw [h1]
    dsimp only
    rw [h2]

/-- Witness for the amended C5 at concrete responses: a missing map, a
non-numeric entry, a missing entry, and a numeric entry. -/
theorem llm_validation_characterization_witness :
    (cexNoScores.dimensionScores = none ∧
      validatedScore cexNoScores .artificial_urgency = 0) ∧
    (validatedScore ⟨some [("artificial_urgency", none)], none, none⟩
        .artificial_urgency = 0) ∧
    (validatedScore ⟨some [("artificial_urgency", some 55)], none, none⟩
        .timing_anomaly = 0) ∧
    (validatedScore ⟨some [("artificial_urgency", some 55)], none, none⟩
        .artificial_urgency = 55) :=
  ⟨⟨rfl, llm_validation_characterization.2.2.1 cexNoScores .artificial_urgency rfl⟩,
   llm_validation_characterization.2.2.2.1 _ [("artificial_urgency", none)]
     .artificial_urgency rfl (by decide),
   llm_validation_characterization.2.2.2.2.1 _ [("artificial_urgency", some 55)]
     .timing_anomaly rfl (by decide),
   llm_validation_characterization.2.2.2.2.2 _ [("artificial_urgency", some 55)]
     .artificial_urgency 55 rfl (by decide)⟩

/-! ## Claim C6: baseline update -/

/-- Existing baseline row for the C6 counterexample: stored average word
count 1.11, sample count 2. -/
def cexRow : BaselineRow :=
  { avg_word_count := some (111/100), avg_sentence_length := some 0,
    typical_hours := some [], formality_score := some (1/2),
    sample_count := some 2 }

/-- Nine consecutive baseline updates from an empty state, adding send
hours in the order 8, 7, 6, 5, 4, 3, 2, 1 and finally 9.  After the
eighth update the stored (sorted) hour list is [1, ..., 8]; the ninth
update overflows the bound of 8. -/
def hourTrace : BaselineRow :=
  update_baseline 0 0 0 (some 9) (some
    (update_baseline 0 0 0 (some 1) (some
      (update_baseline 0 0 0 (some 2) (some
        (update_baseline 0 0 0 (some 3) (some
          (update_baseline 0 0 0 (some 4) (some
            (update_baseline 0 0 0 (some 5) (some
              (update_baseline 0 0 0 (some 6) (some
                (update_baseline 0 0 0 (some 7) (some
                  (update_baseline 0 0 0 (some 8) none))))))))))))))))

/-- Claim C6, counterexample.  Three reachable updates falsify the claim
as stated.  (1) Rounding: word count 0 against a stored average word
count 1.11 stores round(0.85 x 1.11, 2) = 0.94, not the exact EMA
0.9435.  (2) Falsy default: against a stored formality of 0.0 the code
takes the EMA against the Python-or default 0.5 and stores 0.425, not
0.15 x new + 0.85 x 0.0 = 0.  (3) Recency: in the hour trace above, the
overflow evicts hour 1 — the hour added most recently before 9 — while
hour 8, the oldest, is kept, so the set is not the 8 most recently
added hours. -/
theorem baseline_update_cex :
    (update_baseline 0 0 (1/2) none (some cexRow)).avg_word_count ≠
      some (15/100 * (0 : ℚ) + 85/100 * (111/100)) ∧
    (update_baseline 0 0 0 none
        (some ⟨some 1, some 1, some [], some 0, some 1⟩)).formality_score =
      some (17/40) ∧
    (17/40 : ℚ) ≠ 15/100 * 0 + 85/100 * 0 ∧
    hourTrace.typical_hours = some [2, 3, 4, 5, 6, 7, 8, 9] ∧
    (1 : ℤ) ∉ ([2, 3, 4, 5, 6, 7, 8, 9] : List ℤ) := by
  refine ⟨?_, ?_, by norm_num, by decide, by decide⟩
  · have hval : emaAlpha * ((0 : ℕ) : ℚ) + (1 - emaAlpha) * pyOr (some (111/100 : ℚ)) 0 =
        9435/10000 := by
      rw [pyOr_some_ne _ (by norm_num)]
      unfold emaAlpha
      norm_num
    have hr := round2_eval (x := 9435/10000) (n := 94) (by norm_num) (by norm_num)
    simp only [update_baseline, cexRow]
    rw [hval, hr]
    simp only [ne_eq, Option.some.injEq]
    norm_num
  · have hpf : pyOr (some (0 : ℚ)) (1/2) = 1/2 := by simp [pyOr]
    have hval : emaAlpha * (0 : ℚ) + (1 - emaAlpha) * ((1 : ℚ)/2) = 17/40 := by
      unfold emaAlpha
      norm_num
    have hr4 := round4_eval (x := 17/40) (n := 4250) (by norm_num) (by norm_num)
    simp only [update_baseline, hpf]
    rw [hval, hr4]
    norm_num

/-- Claim C6 (amended): on first observation the row is inserted with
the computed values (sentence length rounded to 2 decimals, formality to
4) and sample count 1.  On every later update each scalar axis is stored
as the EMA 0.15 x new + 0.85 x old rounded (2 decimals; formality 4),
where old is the stored value after the Python or-default substitution
(a null or 0.0 stored word count or sentence length counts as 0, a null
or 0.0 stored formality counts as 0.5); the sample count becomes the
stored count (0 when null or 0) plus exactly 1; the hour list (persisted
sorted) gains the new send hour if absent and stays bounded to 8
sorted entries, and on overflow the entry dropped is the first of the
sorted stored list — its smallest hour — not the least recently added
one. -/
theorem baseline_update_characterization :
    (∀ (wc : ℕ) (asl f : ℚ) (sh : Option ℤ),
      update_baseline wc asl f sh none =
        { avg_word_count := some (wc : ℚ),
          avg_sentence_length := some (round2 asl),
          typical_hours := some (match sh with | some h => [h] | none => []),
          formality_score := some (round4 f),
          sample_count := some 1 }) ∧
    (∀ (wc : ℕ) (asl f : ℚ) (sh : Option ℤ) (ow osl : Option ℚ)
        (ohl : Option (List ℤ)) (ofo : Option ℚ) (osc : Option ℤ),
      (update_baseline wc asl f sh (some ⟨ow, osl, ohl, ofo, osc⟩)).avg_word_count =
        some (round2 (15/100 * wc + 85/100 * pyOr ow 0)) ∧
      (update_baseline wc asl f sh (some ⟨ow, osl, ohl, ofo, osc⟩)).avg_sentence_length =
        some (round2 (15/100 * asl + 85/100 * pyOr osl 0)) ∧
      (update_baseline wc asl f sh (some ⟨ow, osl, ohl, ofo, osc⟩)).formality_score =
        some (round4 (15/100 * f + 85/100 * pyOr ofo (1/2))) ∧
      (update_baseline wc asl f sh (some ⟨ow, osl, ohl, ofo, osc⟩)).sample_count =
        some (pyOrZ osc + 1) ∧
      (sh = none →
        (update_baseline wc asl f sh (some ⟨ow, osl, ohl, ofo, osc⟩)).typical_hours =
          some (sortHours (parsedHours ohl))) ∧
      (∀ h, sh = some h → h ∈ parsedHours ohl →
        (update_baseline wc asl f sh (some ⟨ow, osl, ohl, ofo, osc⟩)).typical_hours =
          some (sortHours (parsedHours ohl))) ∧
      (∀ h, sh = some h → h ∉ parsedHours ohl → (parsedHours ohl).length < 8 →
        (update_baseline wc asl f sh (some ⟨ow, osl, ohl, ofo, osc⟩)).typical_hours =
          some (sortHours (parsedHours ohl ++ [h]))) ∧
      (∀ h, sh = some h → h ∉ parsedHours ohl → (parsedHours ohl).length = 8 →
        (update_baseline wc asl f sh (some ⟨ow, osl, ohl, ofo, osc⟩)).typical_hours =
          some (sortHours ((parsedHours ohl).drop 1 ++ [h]))) ∧
      ((parsedHours ohl).length ≤ 8 →
        ∀ l, (update_baseline wc asl f sh (some ⟨ow, osl, ohl, ofo, osc⟩)).typical_hours =
          some l → l.length ≤ 8 ∧ List.Sorted (· ≤ ·) l)) := by
  constructor
  · intro wc asl f sh
    rfl
  · intro wc asl f sh ow osl ohl ofo osc
    refine ⟨?_, ?_, ?_, ?_, ?_, ?_, ?_, ?_, ?_⟩
    · simp only [update_baseline]
      norm_num [emaAlpha]
    · simp only [update_baseline]
      norm_num [emaAlpha]
    · simp only [update_baseline]
      norm_num [emaAlpha]
    · simp only [update_baseline]
    · intro hsh
      subst hsh
      simp only [update_baseline]
    · intro h hsh hmem
      subst hsh
      simp only [update_baseline]
      rw [if_pos hmem]
    · intro h hsh hmem hlt
      subst hsh
      simp only [update_baseline]
      rw [if_neg hmem,
        if_neg (show ¬ ((parsedHours ohl ++ [h]).length > 8) by
          simp only [List.length_append, List.length_singleton]
          omega)]
    · intro h hsh hmem hlen
      subst hsh
      simp only [update_baseline]
      rw [if_neg hmem,
        if_pos (show (parsedHours ohl ++ [h]).length > 8 by
          simp only [List.length_append, List.length_singleton]
          omega)]
      rw [show (parsedHours ohl ++ [h]).length - 8 = 1 by
        simp only [List.length_append, List.length_singleton]
        omega]
      rw [List.drop_append_of_le_length (by omega)]
    · intro hb l hl
      cases sh with
      | none =>
        simp only [update_baseline] at hl
        obtain rfl : sortHours (parsedHours ohl) = l := Option.some_inj.mp hl
        exact ⟨by rw [sortHours, List.length_insertionSort]; exact hb,
          List.sorted_insertionSort _ _⟩
      | some h =>
        simp only [update_baseline] at hl
        set hours1 := if h ∈ parsedHours ohl then parsedHours ohl
          else if (parsedHours ohl ++ [h]).length > 8
            then (parsedHours ohl ++ [h]).drop ((parsedHours ohl ++ [h]).length - 8)
            else parsedHours ohl ++ [h] with hh1
        obtain rfl : sortHours hours1 = l := Option.some_inj.mp hl
        refine ⟨?_, List.sorted_insertionSort _ _⟩
        rw [sortHours, List.length_insertionSort, hh1]
        split_ifs with hmem hgt
        · exact hb
        · rw [List.length_drop]
          omega
        · simp only [List.length_append, List.length_singleton] at hgt ⊢
          omega

/-- Witness for the amended C6: update with word count 4, sentence
length 2, formality 1, hour 9 against a row with stored axes 10, 5, 0.5,
sample count 3, typical hours [8]. -/
theorem baseline_update_characterization_witness :
    ((update_baseline 4 2 1 (some 9)
        (some ⟨some 10, some 5, some [8], some (1/2), some 3⟩)).avg_word_count =
      some (round2 (15/100 * (4 : ℕ) + 85/100 * pyOr (some 10) 0)) ∧
    (update_baseline 4 2 1 (some 9)
        (some ⟨some 10, some 5, some [8], some (1/2), some 3⟩)).formality_score =
      some (round4 (15/100 * 1 + 85/100 * pyOr (some (1/2)) (1/2))) ∧
    (update_baseline 4 2 1 (some 9)
        (some ⟨some 10, some 5, some [8], some (1/2), some 3⟩)).sample_count =
      some (pyOrZ (some 3) + 1)) ∧
    ((9 : ℤ) ∉ parsedHours (some [(8 : ℤ)]) ∧
      (parsedHours (some [(8 : ℤ)])).length < 8 ∧
      (update_baseline 4 2 1 (some 9)
          (some ⟨some 10, some 5, some [8], some (1/2), some 3⟩)).typical_hours =
        some (sortHours (parsedHours (some [(8 : ℤ)]) ++ [9]))) ∧
    ((parsedHours (some [(8 : ℤ)])).length ≤ 8 ∧
      ∀ l, (update_baseline 4 2 1 (some 9)
          (some ⟨some 10, some 5, some [8], some (1/2), some 3⟩)).typical_hours =
        some l → l.length ≤ 8 ∧ List.Sorted (· ≤ ·) l) := by
  obtain hc := baseline_update_characterization.2 4 2 1 (some 9)
    (some 10) (some 5) (some [8]) (some (1/2)) (some 3)
  refine ⟨⟨hc.1, hc.2.2.1, hc.2.2.2.1⟩,
    ⟨by decide, by decide, hc.2.2.2.2.2.2.1 9 rfl (by decide) (by decide)⟩,
    ⟨by decide, hc.2.2.2.2.2.2.2.2 (by decide)⟩⟩

/-! ## Claim C7: deviation scorer -/

/-- Spec-side relative axis (word-count and sentence-length axes of
section 4.6): min(100, 100 x |now - base| / base) when base > 0. -/
def relAxis (now base : ℚ) : ℚ :=
  if base > 0 then min 100 (|now - base| / base * 100) else 0

/-- Spec-side timing axis: 0 when the send hour is among the typical
hours (or there is no send hour or no typical hours), else
min(100, 100 x d / 6) for d the minimum circular distance. -/
def timingAxis (recvHour : Option ℤ) (hours : List ℤ) : ℚ :=
  match recvHour with
  | none => 0
  | some h =>
    if hours = [] ∨ h ∈ hours then 0
    else min 100 (100 * (minCircDist h hours : ℚ) / 6)

/-- Spec-side formality axis: min(100, 200 x |f_now - f_base|). -/
def formalityAxis (now base : ℚ) : ℚ := min 100 (200 * |now - base|)

lemma clamp100_eq_min_max (x : ℚ) : clamp100 x = min 100 (max 0 x) := by
  unfold clamp100
  rcases le_total x 0 with h | h <;> rcases le_total x 100 with h2 | h2 <;>
    simp [min_def, max_def] <;> split_ifs <;> linarith

/-- Body for the C7 counterexample: eight words, one sentence, no
formality markers. -/
def bodyEx : List Char := "a b c d e f g h".data

lemma bodyEx_wordCount : wordCount bodyEx = 8 := by decide

lemma bodyEx_avgSentenceLen : avgSentenceLen bodyEx = 8 := by
  unfold avgSentenceLen
  rw [bodyEx_wordCount, show sentenceCount bodyEx = 1 from by decide]
  norm_num

lemma bodyEx_quickFormality : quickFormality bodyEx = 1/2 := by
  have hfc : (quickFormalMarkers.filter
      (fun m => containsSeq m.data (bodyEx.map asciiLower))).length = 0 := by decide
  have hic : (quickInformalMarkers.filter
      (fun m => containsSeq m.data (bodyEx.map asciiLower))).length = 0 := by decide
  unfold quickFormality
  dsimp only
  rw [hfc, hic]
  norm_num

/-- Claim C7, counterexample: on an eight-word body against a baseline
with average word count 7 (sample count 3, no other deviation), the
scorer returns round(30/7, 2) = 4.29, not the clamped weighted sum
30/7 that the claim states: the aggregate is rounded to two decimals. -/
theorem deviation_score_cex :
    deviation_score bodyEx none (some ⟨7, 0, [], 1/2, 3⟩) = 429/100 ∧
    clamp100 (30/100 * relAxis 8 7 + 15/100 * relAxis 8 0 +
      25/100 * timingAxis none [] + 30/100 * formalityAxis (1/2) (1/2)) = 30/7 ∧
    (429/100 : ℚ) ≠ 30/7 := by
  refine ⟨?_, ?_, by norm_num⟩
  · unfold deviation_score
    dsimp only
    rw [if_neg (by norm_num : ¬ ((3 : ℤ) < 3))]
    rw [show ((wordCount bodyEx : ℕ) : ℚ) = 8 from by rw [bodyEx_wordCount]; norm_num]
    rw [bodyEx_avgSentenceLen, bodyEx_quickFormality]
    rw [if_pos (by norm_num : (7 : ℚ) > 0), if_neg (by norm_num : ¬ ((0 : ℚ) > 0))]
    have hmin1 : min (100 : ℚ) (|8 - 7| / 7 * 100) = 100/7 := by
      rw [min_def]
      split_ifs with hc
      · rw [abs_of_pos (by norm_num : (0:ℚ) < 8 - 7)] at hc
        exfalso; linarith
      · rw [abs_of_pos (by norm_num : (0:ℚ) < 8 - 7)]
        norm_num
    have hmin2 : min (100 : ℚ) (|1/2 - 1/2| * 200) = 0 := by
      norm_num
    rw [hmin1, hmin2]
    have harg : (100/7 : ℚ) * (30/100) + 0 * (15/100) + 0 * (25/100) + 0 * (30/100) =
        30/7 := by norm_num
    rw [harg]
    rw [max_eq_right (by norm_num : (0:ℚ) ≤ 30/7),
      min_eq_right (by norm_num : (30/7 : ℚ) ≤ 100)]
    have h := round2_eval (x := 30/7) (n := 429) (by norm_num) (by norm_num)
    rw [h]
    norm_num
  · unfold relAxis timingAxis formalityAxis
    rw [if_pos (by norm_num : (7 : ℚ) > 0), if_neg (by norm_num : ¬ ((0 : ℚ) > 0))]
    have hmin1 : min (100 : ℚ) (|8 - 7| / 7 * 100) = 100/7 := by
      rw [min_def]
      split_ifs with hc
      · rw [abs_of_pos (by norm_num : (0:ℚ) < 8 - 7)] at hc
        exfalso; linarith
      · rw [abs_of_pos (by norm_num : (0:ℚ) < 8 - 7)]
        norm_num
    rw [hmin1]
    have hmin2 : min (100 : ℚ) (200 * |1/2 - 1/2|) = 0 := by norm_num
    rw [hmin2]
    unfold clamp100
    norm_num

/-- Claim C7 (amended): a null baseline or sample count < 3 yields 0;
otherwise the score is the weighted sum of the four axis scores with
weights 0.30, 0.15, 0.25, 0.30, clamped to [0,100] and rounded to two
decimals, where the timing axis is 0 when there is no send hour, the
typical set is empty, or the send hour is typical, and otherwise
min(100, 100 x d / 6) for d the minimum circular clock distance. -/
theorem deviation_characterization :
    ∀ (body : List Char) (recvHour : Option ℤ) (b : BaselineDict),
      deviation_score body recvHour none = 0 ∧
      deviation_score body recvHour (some b) =
        (if b.sample_count < 3 then 0
         else round2 (clamp100
           (30/100 * relAxis (wordCount body) b.avg_word_count +
            15/100 * relAxis (avgSentenceLen body) b.avg_sentence_length +
            25/100 * timingAxis recvHour b.typical_hours +
            30/100 * formalityAxis (quickFormality body) b.formality_score))) := by
  intro body recvHour b
  refine ⟨rfl, ?_⟩
  unfold deviation_score relAxis formalityAxis
  dsimp only
  by_cases hs : b.sample_count < 3
  · rw [if_pos hs, if_pos hs]
  · rw [if_neg hs, if_neg hs, clamp100_eq_min_max]
    congr 1
    congr 1
    congr 1
    cases recvHour with
    | none =>
      unfold timingAxis
      split_ifs <;> ring
    | some h =>
      unfold timingAxis
      dsimp only
      by_cases hc : b.typical_hours = [] ∨ h ∈ b.typical_hours
      · rw [if_pos hc,
          if_neg (show ¬(b.typical_hours ≠ [] ∧ h ∉ b.typical_hours) from by tauto)]
        split_ifs <;> ring
      · rw [if_neg hc,
          if_pos (show b.typical_hours ≠ [] ∧ h ∉ b.typical_hours from by tauto)]
        split_ifs <;> ring

/-! ## Claim C8: cross-channel detector -/

lemma round2_zero : round2 0 = 0 := by
  unfold round2
  norm_num

lemma round2_natCast (n : ℕ) : round2 (n : ℚ) = (n : ℚ) := by
  unfold round2
  rw [show ((n : ℚ) * 100) = (((n * 100 : ℕ)) : ℚ) by push_cast; ring, round_natCast]
  push_cast
  ring

/-- The distinct channels of the window (the Python set), current
channel included, empty stored channels skipped. -/
def chanList (cur : String) (recent : List RecentAnalysis) : List String :=
  (cur :: recent.filterMap (fun a => if a.channel = "" then none else some a.channel)).dedup

/-- The detection score of section 4.8 before clamping: 25 per extra
channel, frequency bonus capped at 30, and 20 on escalation (at least
two non-null historical scores and the last exceeds the first). -/
def ccRawScore (cur : String) (recent : List RecentAnalysis) : ℚ :=
  (((chanList cur recent).length - 1 : ℕ) : ℚ) * 25 +
    min ((recent.length : ℚ) * 10) 30 +
    (if (recent.filterMap (fun a => a.manipulation_score)).length ≥ 2 ∧
        (recent.filterMap (fun a => a.manipulation_score)).getLastD 0 >
        (recent.filterMap (fun a => a.manipulation_score)).headD 0
     then 20 else 0)

/-- The raw detection score is a natural number, so clamping commutes
with the final two-decimal rounding. -/
lemma score_nat_eval (k c : ℕ) (esc : Prop) [Decidable esc] :
    round2 (min 100 (max 0 (((k - 1 : ℕ) : ℚ) * 25 + min ((c : ℚ) * 10) 30 +
      (if esc then 20 else 0)))) =
    clamp100 (((k - 1 : ℕ) : ℚ) * 25 + min ((c : ℚ) * 10) 30 +
      (if esc then 20 else 0)) := by
  have hnat : (((k - 1 : ℕ) : ℚ) * 25 + min ((c : ℚ) * 10) 30 +
      (if esc then (20:ℚ) else 0)) =
      ((((k - 1) * 25 + min (c * 10) 30 + (if esc then 20 else 0) : ℕ)) : ℚ) := by
    split_ifs <;> push_cast [Nat.cast_min] <;> ring
  rw [hnat, clamp100_eq_min_max, max_eq_right (Nat.cast_nonneg _)]
  rw [show (100:ℚ) = ((100:ℕ):ℚ) from by norm_num, ← Nat.cast_min, round2_natCast]

/-- Claim C8, counterexample: one prior analysis on the same channel as
the current one (fewer than 2 distinct channels): the detector returns
recent_analysis_count = 1, not the 0 the claim states. -/
theorem cross_channel_cex :
    (detect "imap" [⟨"imap", some 50⟩]).coordination_detected = false ∧
    (detect "imap" [⟨"imap", some 50⟩]).score = 0 ∧
    (detect "imap" [⟨"imap", some 50⟩]).channels_used = ["imap"] ∧
    (detect "imap" [⟨"imap", some 50⟩]).recent_analysis_count = 1 ∧
    (1 : ℕ) ≠ 0 := by
  refine ⟨by decide, ?_, by decide, by decide, by decide⟩
  unfold detect
  rw [if_neg (by decide : ¬ ([(⟨"imap", some 50⟩ : RecentAnalysis)] = []))]
  dsimp only
  rw [if_neg (by decide :
    ¬ (("imap" :: [(⟨"imap", some 50⟩ : RecentAnalysis)].filterMap
        (fun a => if a.channel = "" then none else some a.channel)).dedup.length ≥ 2))]
  rw [max_eq_right (by norm_num : (0:ℚ) ≤ 0), min_eq_right (by norm_num : (0:ℚ) ≤ 100),
    round2_zero]

/-- Claim C8 (amended): the detector reports the true window count
(recent_analysis_count equals the number of matching analyses, 0 only
when there are none); with fewer than 2 distinct channels it reports
detected = false with score 0 and channels [current]; with 2 or more it
reports detected = true and the score 25 x (channels - 1) +
min(30, 10 x count) + 20 on escalation, clamped to [0,100]. -/
theorem cross_channel_characterization :
    ∀ (cur : String) (recent : List RecentAnalysis),
      (detect cur recent).recent_analysis_count = recent.length ∧
      (detect cur recent).channels_used = sortStrings (chanList cur recent) ∧
      ((detect cur recent).coordination_detected = true ↔
        2 ≤ (chanList cur recent).length) ∧
      (detect cur recent).score =
        (if 2 ≤ (chanList cur recent).length
         then clamp100 (ccRawScore cur recent) else 0) := by
  intro cur recent
  by_cases hre : recent = []
  · subst hre
    refine ⟨rfl, ?_, ?_, ?_⟩
    · show [cur] = sortStrings (chanList cur [])
      unfold chanList
      simp [sortStrings, List.insertionSort, List.orderedInsert, List.dedup]
    · show (false = true) ↔ _
      unfold chanList
      simp [List.dedup]
    · show (0 : ℚ) = _
      rw [if_neg]
      unfold chanList
      simp [List.dedup]
  · unfold detect
    rw [if_neg hre]
    dsimp only
    refine ⟨rfl, rfl, ?_, ?_⟩
    · show (decide _ = true) ↔ _
      rw [decide_eq_true_eq]
      exact Iff.rfl
    · by_cases hlen : 2 ≤ (chanList cur recent).length
      · have hlen2 : (cur :: recent.filterMap
            (fun a => if a.channel = "" then none else some a.channel)).dedup.length ≥ 2 := by
          unfold chanList at hlen
          exact hlen
        rw [if_pos hlen2, if_pos hlen]
        unfold ccRawScore chanList
        exact score_nat_eval _ _ _
      · have hlen2 : ¬ ((cur :: recent.filterMap
            (fun a => if a.channel = "" then none else some a.channel)).dedup.length ≥ 2) := by
          unfold chanList at hlen
          exact hlen
        rw [if_neg hlen2, if_neg hlen]
        rw [max_eq_right (by norm_num : (0:ℚ) ≤ 0),
          min_eq_right (by norm_num : (0:ℚ) ≤ 100), round2_zero]

/-! ## Claim C9: analysis insert uniqueness -/

/-- Claim C9, counterexample: the first insert of fingerprint
(u1, r1) succeeds; the second insert with the same fingerprint raises
the integrity error instead of returning the existing record. -/
theorem analysis_insert_cex :
    analysisInsert [] "u1" "r1" 50 =
      .ok ([(⟨0, "u1", "r1", 50⟩ : AnalysisRecord)], 0) ∧
    analysisInsert [(⟨0, "u1", "r1", 50⟩ : AnalysisRecord)] "u1" "r1" 60 =
      .error () := by
  constructor
  · unfold analysisInsert
    rw [if_neg (by simp)]
    rfl
  · unfold analysisInsert
    rw [if_pos (by simp)]

/-- Claim C9 (amended): the unique (message_uid, recipient_email)
constraint keeps exactly one record per fingerprint, but the repository
insert has no conflict handling: the second submission of a fingerprint
fails with the integrity error rather than returning the existing
record. -/
theorem analysis_insert_unique :
    ∀ (table : List AnalysisRecord) (uid rcpt : String) (s1 s2 : ℚ),
      (∀ r ∈ table, ¬(r.message_uid = uid ∧ r.recipient_email = rcpt)) →
      ∃ table1 id1,
        analysisInsert table uid rcpt s1 = .ok (table1, id1) ∧
        analysisInsert table1 uid rcpt s2 = .error () ∧
        (table1.filter
          (fun r => r.message_uid = uid ∧ r.recipient_email = rcpt)).length = 1 := by
  intro table uid rcpt s1 s2 hfree
  have hany : (table.any
      (fun r => r.message_uid = uid ∧ r.recipient_email = rcpt)) = false := by
    rw [List.any_eq_false]
    intro r hr
    simpa using hfree r hr
  refine ⟨table ++ [⟨table.length, uid, rcpt, s1⟩], table.length, ?_, ?_, ?_⟩
  · unfold analysisInsert
    rw [if_neg (by rw [hany]; simp)]
  · unfold analysisInsert
    rw [if_pos (by simp [List.any_append])]
  · rw [List.filter_append]
    have h1 : table.filter
        (fun r => decide (r.message_uid = uid ∧ r.recipient_email = rcpt)) = [] := by
      rw [List.filter_eq_nil_iff]
      intro r hr
      simpa using hfree r hr
    rw [h1]
    simp

/-- Witness for the amended C9 on an initially empty table. -/
theorem analysis_insert_unique_witness :
    (∀ r ∈ ([] : List AnalysisRecord),
      ¬(r.message_uid = "u" ∧ r.recipient_email = "r")) ∧
    (∃ table1 id1,
      analysisInsert [] "u" "r" 40 = .ok (table1, id1) ∧
      analysisInsert table1 "u" "r" 55 = .error () ∧
      (table1.filter
        (fun rec => rec.message_uid = "u" ∧ rec.recipient_email = "r")).length = 1) :=
  ⟨by simp, analysis_insert_unique [] "u" "r" 40 55 (by simp)⟩

/-! ## Claim C10: pre-filter result shape -/

lemma ite_bound {c : Prop} [Decidable c] {a : ℚ} (ha : 0 ≤ a) :
    0 ≤ (if c then a else 0) ∧ (if c then a else 0) ≤ a := by
  split_ifs with h
  · exact ⟨ha, le_refl a⟩
  · exact ⟨le_refl 0, ha⟩

lemma ite_min_bound {c : Prop} [Decidable c] (s : ℕ) :
    0 ≤ (if c then min ((s : ℚ) * 5) 20 else 0) ∧
    (if c then min ((s : ℚ) * 5) 20 else 0) ≤ 20 := by
  split_ifs with h
  · exact ⟨le_min (by positivity) (by norm_num), min_le_right _ _⟩
  · exact ⟨le_refl 0, by norm_num⟩

/-- Claim C10: the pre-filter triggers exactly when at least one signal
fired, and the score boost always lies in [0, 62], the sum of the nine
per-family maxima 5 + 8 + 7 + 20 + 4 + 10 + 3 + 3 + 2. -/
theorem prefilter_triggered_and_boost :
    ∀ inp : PreFilterInput,
      ((evaluate inp).triggered = true ↔ (evaluate inp).signals ≠ []) ∧
      0 ≤ (evaluate inp).score_boost ∧ (evaluate inp).score_boost ≤ 62 := by
  intro inp
  refine ⟨?_, ?_⟩
  · have ht : (evaluate inp).triggered =
        decide ((evaluate inp).signals.length > 0) := rfl
    rw [ht, decide_eq_true_eq]
    exact List.length_pos
  · have hb : (evaluate inp).score_boost =
        (if inp.urgencyHits.any id then (5:ℚ) else 0) +
        (if inp.authorityHits.any id then (8:ℚ) else 0) +
        (if inp.fearHits.any id then (7:ℚ) else 0) +
        (if inp.suspiciousHits.count true > 0
          then min ((inp.suspiciousHits.count true : ℚ) * 5) 20 else 0) +
        (if inp.emotionalHits.any id then (4:ℚ) else 0) +
        (if inp.spoofedHits.any id then (10:ℚ) else 0) +
        (if (match inp.receivedHour with
              | some h => decide (h < 5 ∨ h > 23)
              | none => false)
          then (3:ℚ) else 0) +
        (if inp.subject ≠ [] ∧ inp.subject.length > 5 ∧
            inp.subject = inp.subject.map asciiUpper then (3:ℚ) else 0) +
        (if (inp.subject ++ ' ' :: inp.body).count '!' > 3 then (2:ℚ) else 0) := rfl
    rw [hb]
    obtain ⟨p1, q1⟩ := ite_bound (c := inp.urgencyHits.any id = true)
      (a := (5:ℚ)) (by norm_num)
    obtain ⟨p2, q2⟩ := ite_bound (c := inp.authorityHits.any id = true)
      (a := (8:ℚ)) (by norm_num)
    obtain ⟨p3, q3⟩ := ite_bound (c := inp.fearHits.any id = true)
      (a := (7:ℚ)) (by norm_num)
    obtain ⟨p4, q4⟩ := ite_min_bound
      (c := inp.suspiciousHits.count true > 0) (inp.suspiciousHits.count true)
    obtain ⟨p5, q5⟩ := ite_bound (c := inp.emotionalHits.any id = true)
      (a := (4:ℚ)) (by norm_num)
    obtain ⟨p6, q6⟩ := ite_bound (c := inp.spoofedHits.any id = true)
      (a := (10:ℚ)) (by norm_num)
    obtain ⟨p7, q7⟩ := ite_bound
      (c := (match inp.receivedHour with
              | some h => decide (h < 5 ∨ h > 23)
              | none => false) = true)
      (a := (3:ℚ)) (by norm_num)
    obtain ⟨p8, q8⟩ := ite_bound
      (c := inp.subject ≠ [] ∧ inp.subject.length > 5 ∧
        inp.subject = inp.subject.map asciiUpper)
      (a := (3:ℚ)) (by norm_num)
    obtain ⟨p9, q9⟩ := ite_bound
      (c := (inp.subject ++ ' ' :: inp.body).count '!' > 3)
      (a := (2:ℚ)) (by norm_num)
    constructor <;> linarith

end MindWall
